import Mathlib

/-!
Verification of the opuslib native layer: a shallow embedding of
`android/src/main/cpp/opus_jni_wrapper.cpp` and `ios/opus_ctl_helpers.c`.

The Opus codec library itself (`opus_encoder_create`, `opus_encode`,
`opus_encoder_ctl`, `opus_encoder_destroy`) is an external collaborator, not
part of this repository; its calls are modelled by explicit parameters
(return codes, buffer contents) or by an abstract control function, and the
wrapper code is translated faithfully around them.  JNI environment calls
(`GetShortArrayElements`, `ReleaseShortArrayElements`, `NewByteArray`,
`SetByteArrayRegion`) are modelled by their documented semantics.

Pointers are modelled as natural numbers with `0` standing for the null
pointer, matching the `jlong` handle convention of the wrapper (`0` is the
failure sentinel of `nativeCreate`).
-/

namespace Opuslib

/-- OPUS_OK, from the opus public header. -/
def OPUS_OK : Int := 0

/-- OPUS_SET_BITRATE_REQUEST control code, from the opus public header. -/
def OPUS_SET_BITRATE_REQUEST : Int := 4002

/-- OPUS_SET_VBR_REQUEST control code, from the opus public header. -/
def OPUS_SET_VBR_REQUEST : Int := 4006

/-- OPUS_SET_COMPLEXITY_REQUEST control code, from the opus public header. -/
def OPUS_SET_COMPLEXITY_REQUEST : Int := 4010

/-- OPUS_SET_INBAND_FEC_REQUEST control code, from the opus public header. -/
def OPUS_SET_INBAND_FEC_REQUEST : Int := 4012

/-- OPUS_SET_DTX_REQUEST control code, from the opus public header. -/
def OPUS_SET_DTX_REQUEST : Int := 4016

/-- OPUS_SET_DRED_DURATION_REQUEST control code, from the opus public header. -/
def OPUS_SET_DRED_DURATION_REQUEST : Int := 4050

/-- One invocation of the codec's generic control mechanism
`opus_encoder_ctl(enc, REQUEST, value)`, recorded as data. -/
structure CtlCallRec where
  request : Int
  value : Int
deriving DecidableEq, Repr

/-- The codec's generic control mechanism for one encoder instance, modelled
abstractly: given a request code and a value it returns a status code.  The
wrapper never inspects the encoder state, so the encoder argument is folded
into the function. -/
def CtlFun : Type := Int → Int → Int

/-- A single call `opus_encoder_ctl(enc, REQUEST(value))`: returns the
codec's status verbatim together with the one-element trace of the call
made. -/
def opusEncoderCtl (ctl : CtlFun) (request value : Int) : Int × List CtlCallRec :=
  (ctl request value, [⟨request, value⟩])

/-! ### iOS control-surface helpers (`ios/opus_ctl_helpers.c`)

Each helper is translated from its C body; all are one-line calls to
`opus_encoder_ctl` with the corresponding request macro. -/

/-- `opus_encoder_ctl_set_bitrate` from `ios/opus_ctl_helpers.c`. -/
def opus_encoder_ctl_set_bitrate (ctl : CtlFun) (bitrate : Int) : Int × List CtlCallRec :=
  opusEncoderCtl ctl OPUS_SET_BITRATE_REQUEST bitrate

/-- `opus_encoder_ctl_set_dred_duration` from `ios/opus_ctl_helpers.c`. -/
def opus_encoder_ctl_set_dred_duration (ctl : CtlFun) (durationMs : Int) : Int × List CtlCallRec :=
  opusEncoderCtl ctl OPUS_SET_DRED_DURATION_REQUEST durationMs

/-- `opus_encoder_ctl_set_vbr` from `ios/opus_ctl_helpers.c`. -/
def opus_encoder_ctl_set_vbr (ctl : CtlFun) (vbr : Int) : Int × List CtlCallRec :=
  opusEncoderCtl ctl OPUS_SET_VBR_REQUEST vbr

/-- `opus_encoder_ctl_set_complexity` from `ios/opus_ctl_helpers.c`. -/
def opus_encoder_ctl_set_complexity (ctl : CtlFun) (complexity : Int) : Int × List CtlCallRec :=
  opusEncoderCtl ctl OPUS_SET_COMPLEXITY_REQUEST complexity

/-- `opus_encoder_ctl_set_inband_fec` from `ios/opus_ctl_helpers.c`. -/
def opus_encoder_ctl_set_inband_fec (ctl : CtlFun) (fec : Int) : Int × List CtlCallRec :=
  opusEncoderCtl ctl OPUS_SET_INBAND_FEC_REQUEST fec

/-- `opus_encoder_ctl_set_dtx` from `ios/opus_ctl_helpers.c`. -/
def opus_encoder_ctl_set_dtx (ctl : CtlFun) (dtx : Int) : Int × List CtlCallRec :=
  opusEncoderCtl ctl OPUS_SET_DTX_REQUEST dtx

/-- The six named operations of the spec's Codec Control Surface. -/
inductive CtlOp
  | setBitrate
  | setDredDuration
  | setVbr
  | setComplexity
  | setInbandFec
  | setDtx
deriving DecidableEq, Repr

/-- The control code corresponding to each named operation. -/
def CtlOp.request : CtlOp → Int
  | .setBitrate => OPUS_SET_BITRATE_REQUEST
  | .setDredDuration => OPUS_SET_DRED_DURATION_REQUEST
  | .setVbr => OPUS_SET_VBR_REQUEST
  | .setComplexity => OPUS_SET_COMPLEXITY_REQUEST
  | .setInbandFec => OPUS_SET_INBAND_FEC_REQUEST
  | .setDtx => OPUS_SET_DTX_REQUEST

/-- Spec-side Control Surface: each named operation is a single direct
invocation of the codec's generic control mechanism with the corresponding
control code and the unmodified value, the status returned verbatim.
Written from the spec's words for comparison with the source helpers. -/
def ctlSurfaceSpec (ctl : CtlFun) (op : CtlOp) (value : Int) : Int × List CtlCallRec :=
  (ctl op.request value, [⟨op.request, value⟩])

/-- Dispatch a named operation to the corresponding source helper. -/
def ctlSurfaceImpl (ctl : CtlFun) (op : CtlOp) (value : Int) : Int × List CtlCallRec :=
  match op with
  | .setBitrate => opus_encoder_ctl_set_bitrate ctl value
  | .setDredDuration => opus_encoder_ctl_set_dred_duration ctl value
  | .setVbr => opus_encoder_ctl_set_vbr ctl value
  | .setComplexity => opus_encoder_ctl_set_complexity ctl value
  | .setInbandFec => opus_encoder_ctl_set_inband_fec ctl value
  | .setDtx => opus_encoder_ctl_set_dtx ctl value

/-! ### `nativeCreate` (`android/src/main/cpp/opus_jni_wrapper.cpp`) -/

/-- Diagnostics the wrapper writes with `LOGE`, recorded as data so that
which failure was reported, and how distinctly, is provable. -/
inductive LogEvent
  | createFailed (err : Int)
  | bitrateSetFailed (err : Int)
  | dredFailed (err : Int)
deriving DecidableEq, Repr

/-- Result of `nativeCreate`: the returned `jlong` handle (0 on failure),
the trace of `opus_encoder_ctl` calls made, and the error diagnostics
recorded. -/
structure CreateResult where
  handle : Nat
  ctlCalls : List CtlCallRec
  logs : List LogEvent
deriving DecidableEq, Repr

/-- `Java_expo_modules_opuslib_OpusEncoder_nativeCreate`, translated from
the C body.  The external `opus_encoder_create` call is modelled by its two
results: `createErr` (the `error` out-parameter) and `createdEnc` (the
returned encoder pointer, `0` for null).  `opus_encoder_ctl` is the abstract
`ctl`.  Sample rate and channel count are consumed by `opus_encoder_create`
and do not influence the wrapper's own branching. -/
def nativeCreate (bitrate dredDurationMs : Int)
    (createErr : Int) (createdEnc : Nat) (ctl : CtlFun) : CreateResult :=
  if createErr ≠ OPUS_OK ∨ createdEnc = 0 then
    ⟨0, [], [.createFailed createErr]⟩
  else
    let r1 := opusEncoderCtl ctl OPUS_SET_BITRATE_REQUEST bitrate
    let logs1 := if r1.1 ≠ OPUS_OK then [LogEvent.bitrateSetFailed r1.1] else []
    if dredDurationMs > 0 then
      let r2 := opusEncoderCtl ctl OPUS_SET_DRED_DURATION_REQUEST dredDurationMs
      let logs2 := if r2.1 ≠ OPUS_OK then [LogEvent.dredFailed r2.1] else []
      ⟨createdEnc, r1.2 ++ r2.2, logs1 ++ logs2⟩
    else
      ⟨createdEnc, r1.2, logs1⟩

/-! ### `nativeEncode` (`android/src/main/cpp/opus_jni_wrapper.cpp`) -/

/-- The mode argument of `ReleaseShortArrayElements`. -/
inductive ReleaseMode
  | commit
  | abort
deriving DecidableEq, Repr

/-- JNI semantics of `ReleaseShortArrayElements`: with mode `0` (commit) the
working copy is written back to the Java array; with `JNI_ABORT` the working
copy is discarded and the Java array keeps its previous contents. -/
def releaseShortArrayElements (arr workingCopy : List Int) (mode : ReleaseMode) : List Int :=
  match mode with
  | .commit => workingCopy
  | .abort => arr

/-- Result of `nativeEncode`: the returned `jbyteArray` (`none` for the JNI
null result), the contents of the caller's Java PCM array after the call,
and whether `opus_encode` and `GetShortArrayElements` were invoked. -/
structure EncodeOut where
  result : Option (List Nat)
  pcmAfter : List Int
  opusEncodeCalled : Bool
  pcmAccessed : Bool
deriving DecidableEq, Repr

/-- `Java_expo_modules_opuslib_OpusEncoder_nativeEncode`, translated from
the C body.  External calls are modelled by parameters: `getPcmOk` is
whether `GetShortArrayElements` returned a non-null pinned copy;
`encodedBytes` and `output` are the return value of `opus_encode` and the
contents of the 4000-byte stack scratch buffer after the call; `workAfter`
is the state of the pinned working copy when it is released (the wrapper
releases it with `JNI_ABORT`); `allocOk` is whether `NewByteArray`
succeeded.  A positive return is copied out by `SetByteArrayRegion` as the
first `encodedBytes` bytes of the scratch buffer. -/
def nativeEncode (encoderPtr : Nat) (pcmData : List Int) (frameSize : Int)
    (getPcmOk : Bool) (encodedBytes : Int) (output : List Nat)
    (workAfter : List Int) (allocOk : Bool) : EncodeOut :=
  if encoderPtr = 0 then ⟨none, pcmData, false, false⟩
  else if ¬ getPcmOk then ⟨none, pcmData, false, true⟩
  else
    let pcmAfter := releaseShortArrayElements pcmData workAfter .abort
    if encodedBytes < 0 then ⟨none, pcmAfter, true, true⟩
    else if encodedBytes = 0 then ⟨none, pcmAfter, true, true⟩
    else if ¬ allocOk then ⟨none, pcmAfter, true, true⟩
    else ⟨some (output.take encodedBytes.toNat), pcmAfter, true, true⟩

/-! ### `nativeDestroy` and the session layer -/

/-- `Java_expo_modules_opuslib_OpusEncoder_nativeDestroy`, translated from
the C body: `opus_encoder_destroy` is invoked on the pointer iff it is
non-null.  The value is the list of handles passed to
`opus_encoder_destroy` by the call. -/
def nativeDestroyCalls (encoderPtr : Nat) : List Nat :=
  if encoderPtr ≠ 0 then [encoderPtr] else []

/-- A managed encoder session: holds the native handle, `0` once destroyed
or never initialized. -/
structure Session where
  handle : Nat
deriving DecidableEq, Repr

/-- Modelled from the spec: the managed session layer that owns the handle
is not among the native sources; per the destroy contract it calls the
native destroy on the held reference and "sets the resource reference to
null immediately after release".  The native conditional release itself is
translated from `nativeDestroy`.  Returns the session after the call and
the handles released by it. -/
def sessionDestroy (s : Session) : Session × List Nat :=
  (⟨0⟩, nativeDestroyCalls s.handle)

/-! ## Claims -/

/-- C1 (counterexample): the claim says a zero codec return (no packet) is
distinguishable by the caller from a negative codec return (encode error).
At these concrete inputs the wrapper returns the identical null result for
a zero return and for a negative return: the two outcomes are conflated. -/
theorem C1_counterexample :
    (nativeEncode 1 [0] 960 true 0 [] [0] true).result = none ∧
    (nativeEncode 1 [0] 960 true (-1) [] [0] true).result = none ∧
    (nativeEncode 1 [0] 960 true 0 [] [0] true).result =
      (nativeEncode 1 [0] 960 true (-1) [] [0] true).result :=
  ⟨rfl, rfl, rfl⟩

/-- C1 (amended): for every encode call on a live session, a zero codec
return value yields the same null result as a negative codec return value;
at the native boundary the no-packet outcome is conflated with the
encode-failure outcome, not distinguished from it. -/
theorem C1_amended_zero_conflated_with_error
    (encoderPtr : Nat) (pcmData : List Int) (frameSize : Int)
    (getPcmOk : Bool) (encodedBytes : Int) (output : List Nat)
    (workAfter : List Int) (allocOk : Bool)
    (hlive : encoderPtr ≠ 0) (hz : encodedBytes ≤ 0) :
    (nativeEncode encoderPtr pcmData frameSize getPcmOk encodedBytes output
      workAfter allocOk).result = none := by
  rcases lt_or_eq_of_le hz with hneg | hzero
  · unfold nativeEncode
    split_ifs <;> simp_all
  · unfold nativeEncode
    split_ifs <;> simp_all

/-- C1 (amended, witness). -/
theorem C1_amended_zero_conflated_with_error_witness :
    (nativeEncode 1 [0] 960 true 0 [] [0] true).result = none :=
  C1_amended_zero_conflated_with_error 1 [0] 960 true 0 [] [0] true
    (by decide) (by decide)

/-- C2: destroy releases the codec resource iff the session currently holds
one, afterwards the session's resource reference is null, and a second
destroy on the resulting session releases nothing (double-destroy is a safe
no-op). -/
theorem C2_destroy_iff_held_and_idempotent (s : Session) :
    ((sessionDestroy s).2 = [s.handle] ↔ s.handle ≠ 0) ∧
    ((sessionDestroy s).2 = [] ↔ s.handle = 0) ∧
    (sessionDestroy s).1.handle = 0 ∧
    (sessionDestroy (sessionDestroy s).1).2 = [] := by
  by_cases h : s.handle = 0 <;>
    simp [sessionDestroy, nativeDestroyCalls, h]

/-- C3: an encode call whose session handle is null returns the null
(invalid-session) result immediately, without invoking `opus_encode` and
without touching the PCM input. -/
theorem C3_null_handle_fails_fast
    (pcmData : List Int) (frameSize : Int) (getPcmOk : Bool)
    (encodedBytes : Int) (output : List Nat) (workAfter : List Int)
    (allocOk : Bool) :
    (nativeEncode 0 pcmData frameSize getPcmOk encodedBytes output
      workAfter allocOk).result = none ∧
    (nativeEncode 0 pcmData frameSize getPcmOk encodedBytes output
      workAfter allocOk).opusEncodeCalled = false ∧
    (nativeEncode 0 pcmData frameSize getPcmOk encodedBytes output
      workAfter allocOk).pcmAccessed = false := by
  simp [nativeEncode]

/-- C4: when codec instance creation succeeds but the bitrate
configuration call fails, `nativeCreate` still returns the live encoder
handle (nonzero) and the bitrate failure is recorded in the diagnostics. -/
theorem C4_bitrate_failure_nonfatal
    (bitrate dredDurationMs createErr : Int) (createdEnc : Nat) (ctl : CtlFun)
    (hok : createErr = OPUS_OK) (henc : createdEnc ≠ 0)
    (hfail : ctl OPUS_SET_BITRATE_REQUEST bitrate ≠ OPUS_OK) :
    (nativeCreate bitrate dredDurationMs createErr createdEnc ctl).handle
      = createdEnc ∧
    LogEvent.bitrateSetFailed (ctl OPUS_SET_BITRATE_REQUEST bitrate) ∈
      (nativeCreate bitrate dredDurationMs createErr createdEnc ctl).logs := by
  unfold nativeCreate opusEncoderCtl
  split_ifs <;> simp_all

/-- C4 (witness): a concrete create with bitrate `-5` whose bitrate control
call fails still yields the live handle `1` and records the failure. -/
theorem C4_bitrate_failure_nonfatal_witness :
    (nativeCreate (-5) 0 0 1 (fun _ _ => -1)).handle = 1 ∧
    LogEvent.bitrateSetFailed (-1) ∈
      (nativeCreate (-5) 0 0 1 (fun _ _ => -1)).logs :=
  C4_bitrate_failure_nonfatal (-5) 0 0 1 (fun _ _ => -1)
    (by decide) (by decide) (by decide)

/-- C5: when `opus_encode` returns a positive `n` (at most the 4000-byte
scratch capacity) and allocation succeeds, the encode call returns a byte
array that is exactly the copy of the first `n` bytes of the scratch
buffer, of length exactly `n`. -/
theorem C5_positive_return_copies_n_bytes
    (encoderPtr : Nat) (pcmData : List Int) (frameSize : Int)
    (encodedBytes : Int) (output : List Nat) (workAfter : List Int)
    (hlive : encoderPtr ≠ 0) (hpos : 0 < encodedBytes)
    (hcap : encodedBytes ≤ 4000) (hout : output.length = 4000) :
    (nativeEncode encoderPtr pcmData frameSize true encodedBytes output
      workAfter true).result = some (output.take encodedBytes.toNat) ∧
    (output.take encodedBytes.toNat).length = encodedBytes.toNat ∧
    1 ≤ encodedBytes.toNat ∧ encodedBytes.toNat ≤ 4000 := by
  have hcap4 : encodedBytes.toNat ≤ 4000 := by
    exact Int.toNat_le.mpr hcap
  refine ⟨?_, ?_, ?_, hcap4⟩
  · unfold nativeEncode
    split_ifs <;> simp_all <;> omega
  · simp [List.length_take, hout]
    omega
  · omega

/-- C5 (witness): a concrete encode where the codec reports 3 bytes yields
the copy of the first 3 scratch bytes. -/
theorem C5_positive_return_copies_n_bytes_witness :
    (nativeEncode 1 [0] 960 true 3 (List.replicate 4000 7) [0]
      true).result = some ((List.replicate 4000 7).take 3) ∧
    ((List.replicate 4000 7).take (3 : Int).toNat).length = (3 : Int).toNat ∧
    1 ≤ (3 : Int).toNat ∧ (3 : Int).toNat ≤ 4000 :=
  C5_positive_return_copies_n_bytes 1 [0] 960 3 (List.replicate 4000 7) [0]
    (by decide) (by decide) (by decide) (List.length_replicate 4000 7)

/-- C6: the DRED-duration control call is made iff `dredDurationMs > 0`,
and when it is made and fails, the failure is recorded distinctly (as a
DRED diagnostic) while the live handle is still returned. -/
theorem C6_dred_iff_positive_and_nonfatal
    (bitrate dredDurationMs createErr : Int) (createdEnc : Nat) (ctl : CtlFun)
    (hok : createErr = OPUS_OK) (henc : createdEnc ≠ 0) :
    ((∃ v, CtlCallRec.mk OPUS_SET_DRED_DURATION_REQUEST v ∈
        (nativeCreate bitrate dredDurationMs createErr createdEnc ctl).ctlCalls)
      ↔ dredDurationMs > 0) ∧
    (dredDurationMs > 0 →
      ctl OPUS_SET_DRED_DURATION_REQUEST dredDurationMs ≠ OPUS_OK →
      (nativeCreate bitrate dredDurationMs createErr createdEnc ctl).handle
        = createdEnc ∧
      LogEvent.dredFailed (ctl OPUS_SET_DRED_DURATION_REQUEST dredDurationMs) ∈
        (nativeCreate bitrate dredDurationMs createErr createdEnc ctl).logs) := by
  unfold nativeCreate opusEncoderCtl
  constructor
  · constructor
    · rintro ⟨v, hv⟩
      by_contra hnot
      simp only [hok, OPUS_OK] at hv
      split_ifs at hv <;>
        simp_all [OPUS_SET_DRED_DURATION_REQUEST, OPUS_SET_BITRATE_REQUEST]
    · intro hpos
      refine ⟨dredDurationMs, ?_⟩
      simp_all [OPUS_OK]
  · intro hpos hfail
    simp_all [OPUS_OK]

/-- C6 (witness): a concrete create with `dredDurationMs = 50` whose DRED
control call fails still yields the live handle and records the DRED
failure distinctly; the DRED control call was made. -/
theorem C6_dred_iff_positive_and_nonfatal_witness :
    ((∃ v, CtlCallRec.mk OPUS_SET_DRED_DURATION_REQUEST v ∈
        (nativeCreate 24000 50 0 1
          (fun r _ => if r = OPUS_SET_DRED_DURATION_REQUEST then -5 else 0)).ctlCalls)
      ↔ (50 : Int) > 0) ∧
    ((50 : Int) > 0 →
      (fun (r : Int) (_ : Int) =>
        if r = OPUS_SET_DRED_DURATION_REQUEST then (-5 : Int) else 0)
          OPUS_SET_DRED_DURATION_REQUEST 50 ≠ OPUS_OK →
      (nativeCreate 24000 50 0 1
        (fun r _ => if r = OPUS_SET_DRED_DURATION_REQUEST then -5 else 0)).handle = 1 ∧
      LogEvent.dredFailed
        ((fun (r : Int) (_ : Int) =>
          if r = OPUS_SET_DRED_DURATION_REQUEST then (-5 : Int) else 0)
            OPUS_SET_DRED_DURATION_REQUEST 50) ∈
        (nativeCreate 24000 50 0 1
          (fun r _ => if r = OPUS_SET_DRED_DURATION_REQUEST then -5 else 0)).logs) :=
  C6_dred_iff_positive_and_nonfatal 24000 50 0 1
    (fun r _ => if r = OPUS_SET_DRED_DURATION_REQUEST then -5 else 0)
    (by decide) (by decide)

/-- C7: when codec instance creation itself fails (nonzero error or null
instance), `nativeCreate` returns the failure sentinel `0` and performs no
configuration control call. -/
theorem C7_create_failure_sentinel_no_config
    (bitrate dredDurationMs createErr : Int) (createdEnc : Nat) (ctl : CtlFun)
    (h : createErr ≠ OPUS_OK ∨ createdEnc = 0) :
    (nativeCreate bitrate dredDurationMs createErr createdEnc ctl).handle = 0 ∧
    (nativeCreate bitrate dredDurationMs createErr createdEnc ctl).ctlCalls = [] := by
  simp [nativeCreate, h]

/-- C7 (witness): a concrete create whose codec creation reports error `-1`
returns handle `0` and makes no control call. -/
theorem C7_create_failure_sentinel_no_config_witness :
    (nativeCreate 24000 0 (-1) 0 (fun _ _ => 0)).handle = 0 ∧
    (nativeCreate 24000 0 (-1) 0 (fun _ _ => 0)).ctlCalls = [] :=
  C7_create_failure_sentinel_no_config 24000 0 (-1) 0 (fun _ _ => 0)
    (Or.inr rfl)

/-- C8: each Control Surface helper equals a single direct invocation of
the codec's generic control mechanism with the corresponding control code
and the unmodified value — exactly one control call is made and the codec's
status is returned verbatim. -/
theorem C8_ctl_helpers_refine_spec (ctl : CtlFun) (op : CtlOp) (value : Int) :
    ctlSurfaceImpl ctl op value = ctlSurfaceSpec ctl op value ∧
    (ctlSurfaceImpl ctl op value).2 = [⟨op.request, value⟩] ∧
    (ctlSurfaceImpl ctl op value).1 = ctl op.request value := by
  cases op <;>
    simp [ctlSurfaceImpl, ctlSurfaceSpec, opusEncoderCtl, CtlOp.request,
      opus_encoder_ctl_set_bitrate, opus_encoder_ctl_set_dred_duration,
      opus_encoder_ctl_set_vbr, opus_encoder_ctl_set_complexity,
      opus_encoder_ctl_set_inband_fec, opus_encoder_ctl_set_dtx]

/-- C9: every unsuccessful encode outcome — null handle, PCM access
failure, negative codec return, zero codec return, or allocation failure —
is reported as the same null result. -/
theorem C9_all_failures_are_null
    (encoderPtr : Nat) (pcmData : List Int) (frameSize : Int)
    (getPcmOk : Bool) (encodedBytes : Int) (output : List Nat)
    (workAfter : List Int) (allocOk : Bool)
    (h : encoderPtr = 0 ∨ getPcmOk = false ∨ encodedBytes < 0 ∨
      encodedBytes = 0 ∨ allocOk = false) :
    (nativeEncode encoderPtr pcmData frameSize getPcmOk encodedBytes output
      workAfter allocOk).result = none := by
  unfold nativeEncode
  rcases h with h | h | h | h | h <;> split_ifs <;> simp_all

/-- C9 (witness): a concrete encode whose allocation fails returns null. -/
theorem C9_all_failures_are_null_witness :
    (nativeEncode 1 [0] 960 true 3 [] [0] false).result = none :=
  C9_all_failures_are_null 1 [0] 960 true 3 [] [0] false
    (by simp)

/-- C10: an encode call on a live session leaves the caller's PCM array
unchanged: the working copy is released with `JNI_ABORT`, so nothing is
ever written back, whatever happened to the working copy. -/
theorem C10_pcm_array_unchanged
    (encoderPtr : Nat) (pcmData : List Int) (frameSize : Int)
    (getPcmOk : Bool) (encodedBytes : Int) (output : List Nat)
    (workAfter : List Int) (allocOk : Bool)
    (hlive : encoderPtr ≠ 0) :
    (nativeEncode encoderPtr pcmData frameSize getPcmOk encodedBytes output
      workAfter allocOk).pcmAfter = pcmData := by
  unfold nativeEncode
  split_ifs <;> simp_all [releaseShortArrayElements]

/-- C10 (witness): a concrete successful encode leaves the PCM array `[5, 6]`
intact even though the working copy ended as `[9, 9]`. -/
theorem C10_pcm_array_unchanged_witness :
    (nativeEncode 1 [5, 6] 960 true 3 [] [9, 9] true).pcmAfter = [5, 6] :=
  C10_pcm_array_unchanged 1 [5, 6] 960 true 3 [] [9, 9] true (by decide)

end Opuslib
